import Mathlib

/-
Verification of the quiz-document generator (quiz_generator_gui.py).

The program parses a JSON text into a dynamic value, runs a shallow schema
validator (validate_quiz_schema) and, on success, assembles an ordered list
of layout blocks (build_pdf) which an external renderer paginates.

We embed JSON values as the inductive type JValue and translate the two
core functions.  Python dynamic-typing failures are modelled explicitly:
  - ValueError raised by the validator, with the exact reason (PyVErr);
  - KeyError from subscripting a mapping at an absent key;
  - TypeError from a membership test or subscript on an unsupported value;
  - AttributeError from calling .get on a value that is not a mapping.
Fallible code returns Except PyErr.  JSON numeric literals are modelled as
integers; none of the verified properties depends on numeric values.
-/

inductive JValue where
  | null
  | bool (b : Bool)
  | num (n : Int)
  | str (s : String)
  | arr (xs : List JValue)
  | obj (kvs : List (String × JValue))

/-- Lookup of a key in the association list representing a Python dict.
Python dict keys are unique, so first-match lookup is faithful. -/
def lookup : List (String × JValue) → String → Option JValue
  | [], _ => none
  | (k, v) :: rest, k0 => if k = k0 then some v else lookup rest k0

/-- Reasons of the ValueError exceptions raised by validate_quiz_schema,
one constructor per raise site. -/
inductive PyVErr where
  | missingTop (k : String)
  | questionsNotNonemptyList
  | questionMissingFields (i : Nat)
  | questionOptionsIncomplete (i : Nat)
  | solutionNotList
deriving DecidableEq

/-- Kinds of exception the embedded code can raise. -/
inductive PyErr where
  | valueError (e : PyVErr)
  | keyError (k : String)
  | typeError
  | attributeError
deriving DecidableEq

/-- The single-quote character, used to spell the exact Python messages. -/
def squote : String := String.singleton (Char.ofNat 39)

/-- Exact message text of each ValueError raised by validate_quiz_schema. -/
def reasonString : PyVErr → String
  | .missingTop k => "Missing top-level key: " ++ k
  | .questionsNotNonemptyList => "questions must be a non-empty list"
  | .questionMissingFields i =>
      "Question " ++ toString i ++ " must have " ++ squote ++ "text" ++ squote
        ++ " and " ++ squote ++ "options" ++ squote
  | .questionOptionsIncomplete i =>
      "Question " ++ toString i ++ " options must include A, B, C, D"
  | .solutionNotList => "solution_table must be a list"

/-- Decide whether the first character list starts the second one. -/
def charsStartWith : List Char → List Char → Bool
  | [], _ => true
  | _ :: _, [] => false
  | a :: as, b :: bs => a = b && charsStartWith as bs

/-- Decide whether the first character list occurs contiguously inside the
second one; the empty needle occurs in every haystack, as in Python. -/
def charsInside (needle : List Char) : List Char → Bool
  | [] => needle.isEmpty
  | b :: t => charsStartWith needle (b :: t) || charsInside needle t

/-- Python membership test (k in v) for a string needle k: key test on a
dict, element test on a list, substring test on a string, TypeError on the
remaining JSON shapes (numbers, booleans, null are not iterable).  For the
list case only string elements can compare equal to the string needle. -/
def pyContains (v : JValue) (k : String) : Except PyErr Bool :=
  match v with
  | .obj kvs => .ok (lookup kvs k).isSome
  | .arr xs => .ok (xs.any fun x => match x with | .str s => s = k | _ => false)
  | .str s => .ok (charsInside k.toList s.toList)
  | _ => .error .typeError

/-- Python subscript v[k] for a string key k: dict lookup raising KeyError
when absent; TypeError on every other shape (lists and strings demand an
integer index, the rest are not subscriptable). -/
def pySubscript (v : JValue) (k : String) : Except PyErr JValue :=
  match v with
  | .obj kvs =>
      match lookup kvs k with
      | some x => .ok x
      | none => .error (.keyError k)
  | _ => .error .typeError

/-- Python v.get(k, dflt): defaulted dict lookup; AttributeError when v is
not a dict (no other JSON shape has a get method). -/
def pyGet (v : JValue) (k : String) (dflt : JValue) : Except PyErr JValue :=
  match v with
  | .obj kvs => .ok ((lookup kvs k).getD dflt)
  | _ => .error .attributeError

/-- Python iteration (for x in v): elements of a list, keys of a dict,
one-character strings of a string, TypeError otherwise. -/
def pyIterElems (v : JValue) : Except PyErr (List JValue) :=
  match v with
  | .arr xs => .ok xs
  | .obj kvs => .ok (kvs.map fun p => .str p.1)
  | .str s => .ok (s.toList.map fun c => .str (String.singleton c))
  | _ => .error .typeError

/-- Sequencing in the exception monad, mirroring Python evaluation order:
a raised exception propagates, otherwise evaluation continues with the
value. -/
def exBind {α β : Type} (x : Except PyErr α) (f : α → Except PyErr β) : Except PyErr β :=
  match x with
  | .error e => .error e
  | .ok a => f a

/-- The required_top list of validate_quiz_schema. -/
def requiredTop : List String := ["title", "subtitle", "questions", "solution_table"]

/-- The first loop of validate_quiz_schema: for k in required_top, raise
ValueError on the first k with (k not in data). -/
def checkTop (data : JValue) : List String → Except PyErr Unit
  | [] => .ok ()
  | k :: rest =>
      exBind (pyContains data k) fun present =>
        if present then checkTop data rest
        else .error (.valueError (.missingTop k))

/-- Body of one iteration of the per-question loop of validate_quiz_schema,
for the question at 1-based position i: first the presence test of the text
and options keys (short-circuit or, evaluated left to right), then
opts = q[options] and the test that opts is a dict containing A, B, C, D. -/
def questionCheck (i : Nat) (q : JValue) : Except PyErr Unit :=
  exBind (pyContains q "text") fun hasText =>
    if hasText then
      exBind (pyContains q "options") fun hasOpts =>
        if hasOpts then
          exBind (pySubscript q "options") fun opts =>
            match opts with
            | .obj okvs =>
                if (lookup okvs "A").isSome && (lookup okvs "B").isSome
                    && (lookup okvs "C").isSome && (lookup okvs "D").isSome
                then .ok ()
                else .error (.valueError (.questionOptionsIncomplete i))
            | _ => .error (.valueError (.questionOptionsIncomplete i))
        else .error (.valueError (.questionMissingFields i))
    else .error (.valueError (.questionMissingFields i))

/-- The per-question loop (for i, q in enumerate(questions, start=1)). -/
def checkQuestions (i : Nat) : List JValue → Except PyErr Unit
  | [] => .ok ()
  | q :: rest => exBind (questionCheck i q) fun _ => checkQuestions (i + 1) rest

/-- Translation of validate_quiz_schema.  On success the Python function
returns True; each raise is an error result carrying the exception. -/
def validate_quiz_schema (data : JValue) : Except PyErr Bool :=
  exBind (checkTop data requiredTop) fun _ =>
    exBind (pySubscript data "questions") fun qv =>
      match qv with
      | .arr qs =>
          if qs.isEmpty then .error (.valueError .questionsNotNonemptyList)
          else
            exBind (checkQuestions 1 qs) fun _ =>
              exBind (pySubscript data "solution_table") fun sv =>
                match sv with
                | .arr _ => .ok true
                | _ => .error (.valueError .solutionNotList)
      | _ => .error (.valueError .questionsNotNonemptyList)

/-- Lengths appearing in the story are kept symbolic: a number of points or
a rational multiple of the centimetre unit of the layout library (the source
writes 6 * cm and so on; the numeric value of cm is a presentation constant
of the external renderer and is never computed with here). -/
inductive Length where
  | pt (n : ℚ)
  | cm (n : ℚ)
deriving DecidableEq

/-- Paragraph styles defined at the top of build_pdf.  Their font, spacing
and colour parameters are presentation constants of the external renderer;
only the identity of the style matters for the document structure.  The
design-level block taxonomy maps titleCentered to TitleText, subtitleCentered
to SubtitleText, heading2 to SectionHeading, and question and option to
BodyParagraph. -/
inductive PStyle where
  | titleCentered
  | subtitleCentered
  | heading2
  | question
  | option
deriving DecidableEq

/-- One abstract layout block appended to the story of build_pdf.  A
paragraph carries the value passed to the Paragraph constructor (the source
passes data fields through unchanged and builds interpolated strings for
questions and options) together with its style; a table carries its rows of
cell strings and its column widths. -/
inductive Block where
  | par (text : JValue) (style : PStyle)
  | spacer (w : Length) (h : Length)
  | pageBreak
  | table (rows : List (List String)) (colWidths : List Length)

/-- Block shape discriminators used to count blocks of the story. -/
def isPageBreak : Block → Bool
  | .pageBreak => true
  | _ => false

/-- A body paragraph in the design taxonomy: a paragraph set in the question
or option style (titles, subtitles and section headings are distinct block
kinds). -/
def isBodyParagraph : Block → Bool
  | .par _ .question => true
  | .par _ .option => true
  | _ => false

/-- A table block. -/
def isTable : Block → Bool
  | .table _ _ => true
  | _ => false

mutual

/-- Python repr of a JSON-shaped value, needed because str of a container
reprs its elements.  Escaping of special characters inside reprd strings is
not modelled; no verified property inspects the repr of a container. -/
def pyRepr : JValue → String
  | .null => "None"
  | .bool true => "True"
  | .bool false => "False"
  | .num n => toString n
  | .str s => squote ++ s ++ squote
  | .arr xs => "[" ++ pyReprList xs ++ "]"
  | .obj kvs => "\x7b" ++ pyReprPairs kvs ++ "\x7d"

/-- Comma-separated reprs of list elements. -/
def pyReprList : List JValue → String
  | [] => ""
  | [x] => pyRepr x
  | x :: y :: rest => pyRepr x ++ ", " ++ pyReprList (y :: rest)

/-- Comma-separated reprs of dict items. -/
def pyReprPairs : List (String × JValue) → String
  | [] => ""
  | [(k, v)] => squote ++ k ++ squote ++ ": " ++ pyRepr v
  | (k, v) :: p :: rest =>
      squote ++ k ++ squote ++ ": " ++ pyRepr v ++ ", " ++ pyReprPairs (p :: rest)

end

/-- Python str coercion as used by str(x) and by f-string interpolation:
the identity on strings, repr-like rendering otherwise. -/
def pyStr : JValue → String
  | .str s => s
  | v => pyRepr v

/-- The five story appends of one iteration of the question loop of
build_pdf: the numbered stem paragraph, the four option paragraphs indexed
by the literal keys A, B, C, D in that order, and the Spacer(1, 4).
Failures are the subscript exceptions, in evaluation order: q[text],
q[options], then opts[A] to opts[D]. -/
def questionGroup (idx : Nat) (q : JValue) : Except PyErr (List Block) :=
  exBind (pySubscript q "text") fun t =>
    exBind (pySubscript q "options") fun opts =>
      exBind (pySubscript opts "A") fun a =>
        exBind (pySubscript opts "B") fun b =>
          exBind (pySubscript opts "C") fun c =>
            exBind (pySubscript opts "D") fun d =>
              .ok [ .par (.str (toString idx ++ ". " ++ pyStr t)) .question,
                    .par (.str ("A) " ++ pyStr a)) .option,
                    .par (.str ("B) " ++ pyStr b)) .option,
                    .par (.str ("C) " ++ pyStr c)) .option,
                    .par (.str ("D) " ++ pyStr d)) .option,
                    .spacer (.pt 1) (.pt 4) ]

/-- The question loop of build_pdf (for idx, q in enumerate(questions, 1)),
concatenating the five appends of every iteration. -/
def questionsBlocks (i : Nat) : List JValue → Except PyErr (List Block)
  | [] => .ok []
  | q :: rest =>
      exBind (questionGroup i q) fun bs =>
        exBind (questionsBlocks (i + 1) rest) fun bs2 => .ok (bs ++ bs2)

/-- The solution-table loop of build_pdf: per row the three defaulted
lookups row.get(number, empty), row.get(answer, empty),
row.get(explanation, empty), each coerced with str. -/
def solutionRows : List JValue → Except PyErr (List (List String))
  | [] => .ok []
  | row :: rest =>
      exBind (pyGet row "number" (.str "")) fun num =>
        exBind (pyGet row "answer" (.str "")) fun ans =>
          exBind (pyGet row "explanation" (.str "")) fun expl =>
            exBind (solutionRows rest) fun rs =>
              .ok ([pyStr num, pyStr ans, pyStr expl] :: rs)

/-- Header row of the solution table. -/
def tableHeader : List String := ["#", "Answer", "Explanation"]

/-- Column widths of the solution table: 1.5 cm, 2.0 cm, 13.0 cm. -/
def tableColWidths : List Length := [.cm (3 / 2), .cm 2, .cm 13]

/-- Style directives applied to the table (grid on all cells, shaded and
centered header, top vertical alignment, fixed paddings and font size).
They are configuration constants and carry no data. -/
def tableStyleDirectives : List String :=
  ["GRID", "BACKGROUND", "ALIGN", "VALIGN", "LEFTPADDING", "RIGHTPADDING", "FONTSIZE"]

/-- The story construction of build_pdf, that is everything build_pdf
appends to the story list, in order, before handing it to the external
renderer: Spacer(1, 6 cm), the title and subtitle paragraphs, a page break,
the Questions heading, Spacer(1, 6), the question groups, a page break, the
Solution Table heading, and the table with header row and one row per
solution_table entry.  Subscripts and gets fail exactly where the Python
evaluation would raise; the output file writing of the external renderer is
outside the model. -/
def build_story (data : JValue) : Except PyErr (List Block) :=
  exBind (pySubscript data "title") fun title =>
    exBind (pySubscript data "subtitle") fun subtitle =>
      exBind (pySubscript data "questions") fun qv =>
        exBind (pyIterElems qv) fun qs =>
          exBind (questionsBlocks 1 qs) fun qbs =>
            exBind (pyGet data "solution_table" (.arr [])) fun sv =>
              exBind (pyIterElems sv) fun rows =>
                exBind (solutionRows rows) fun rs =>
                  .ok ([ .spacer (.pt 1) (.cm 6),
                         .par title .titleCentered,
                         .par subtitle .subtitleCentered,
                         .pageBreak,
                         .par (.str "Questions") .heading2,
                         .spacer (.pt 1) (.pt 6) ]
                       ++ qbs
                       ++ [ .pageBreak,
                            .par (.str "Solution Table") .heading2,
                            .table (tableHeader :: rs) tableColWidths ])

/-- The document title metadata of the SimpleDocTemplate call:
data.get(title, Quiz). -/
def doc_title (data : JValue) : Except PyErr JValue :=
  pyGet data "title" (.str "Quiz")

/-- The built-in sample fixture SAMPLE_TEMPLATE, transcribed literally
(including the en dash of the title and the non-breaking hyphens). -/
def SAMPLE_TEMPLATE : JValue :=
  .obj
    [ ("title", .str "Networking – Practice Quiz (5 Questions)"),
      ("subtitle", .str "Sample: Basic Concepts"),
      ("questions", .arr
        [ .obj [ ("text", .str "Which OSI layer is responsible for routing?"),
                 ("options", .obj [("A", .str "Physical"), ("B", .str "Network"),
                                   ("C", .str "Transport"), ("D", .str "Application")]) ],
          .obj [ ("text", .str "Which protocol translates domain names to IP addresses?"),
                 ("options", .obj [("A", .str "HTTP"), ("B", .str "DNS"),
                                   ("C", .str "FTP"), ("D", .str "SSH")]) ],
          .obj [ ("text", .str "Which device operates primarily at Layer 2 of the OSI model?"),
                 ("options", .obj [("A", .str "Router"), ("B", .str "Switch"),
                                   ("C", .str "Firewall"), ("D", .str "Server")]) ],
          .obj [ ("text", .str "Which IP version uses 128-bit addresses?"),
                 ("options", .obj [("A", .str "IPv4"), ("B", .str "IPv6"),
                                   ("C", .str "IPX"), ("D", .str "ARP")]) ],
          .obj [ ("text", .str "Which transport protocol provides reliable, connection‑oriented delivery?"),
                 ("options", .obj [("A", .str "ICMP"), ("B", .str "UDP"),
                                   ("C", .str "TCP"), ("D", .str "ARP")]) ] ]),
      ("solution_table", .arr
        [ .obj [("number", .num 1), ("answer", .str "B"),
                ("explanation", .str "Routing happens at the OSI Network (Layer 3).")],
          .obj [("number", .num 2), ("answer", .str "B"),
                ("explanation", .str "DNS resolves domain names to IP addresses.")],
          .obj [("number", .num 3), ("answer", .str "B"),
                ("explanation", .str "Switches primarily operate at Layer 2 (Data Link).")],
          .obj [("number", .num 4), ("answer", .str "B"),
                ("explanation", .str "IPv6 uses 128‑bit addresses.")],
          .obj [("number", .num 5), ("answer", .str "C"),
                ("explanation", .str "TCP is reliable and connection‑oriented.")] ]) ]

/-- Total field access used by the specification-side definitions below:
the value of a key of a mapping, some default when absent or when the value
is not a mapping. -/
def jGetD (v : JValue) (k : String) (dflt : JValue) : JValue :=
  match v with
  | .obj kvs => (lookup kvs k).getD dflt
  | _ => dflt

/-- Specification-side rendering of one question group, written from the
spec sentence: one BodyParagraph rendering the 1-based index, a dot and the
question text, then four BodyParagraphs rendering the options addressed by
the constant letter keys A, B, C, D in that fixed order, then a small
spacer.  Every field is addressed by key only, so the key ordering of the
options mapping is irrelevant. -/
def specQuestionGroup (i : Nat) (q : JValue) : List Block :=
  [ .par (.str (toString i ++ ". " ++ pyStr (jGetD q "text" .null))) .question,
    .par (.str ("A) " ++ pyStr (jGetD (jGetD q "options" .null) "A" .null))) .option,
    .par (.str ("B) " ++ pyStr (jGetD (jGetD q "options" .null) "B" .null))) .option,
    .par (.str ("C) " ++ pyStr (jGetD (jGetD q "options" .null) "C" .null))) .option,
    .par (.str ("D) " ++ pyStr (jGetD (jGetD q "options" .null) "D" .null))) .option,
    .spacer (.pt 1) (.pt 4) ]

/-- Specification-side question section: the question groups of the list of
questions, in order, 1-based indices starting at i. -/
def specQuestionSegment (i : Nat) : List JValue → List Block
  | [] => []
  | q :: rest => specQuestionGroup i q ++ specQuestionSegment (i + 1) rest

/-- Specification-side rendering of one solution-table row, written from
the spec sentence: number, answer and explanation each coerced to display
text, a missing field rendering as empty text. -/
def specSolutionRow (r : JValue) : List String :=
  [ pyStr (jGetD r "number" (.str "")),
    pyStr (jGetD r "answer" (.str "")),
    pyStr (jGetD r "explanation" (.str "")) ]

/-- The six blocks preceding the question section of the story: leading
spacer, title, subtitle, page break, Questions heading, small spacer. -/
def storyHead (data : JValue) : List Block :=
  [ .spacer (.pt 1) (.cm 6),
    .par (jGetD data "title" .null) .titleCentered,
    .par (jGetD data "subtitle" .null) .subtitleCentered,
    .pageBreak,
    .par (.str "Questions") .heading2,
    .spacer (.pt 1) (.pt 6) ]

/-- The three blocks following the question section of the story: page
break, Solution Table heading, and the table built from the given rows. -/
def storyTail (rs : List (List String)) : List Block :=
  [ .pageBreak,
    .par (.str "Solution Table") .heading2,
    .table (tableHeader :: rs) tableColWidths ]

/-- Shape a question is guaranteed to have once its questionCheck passes: a
mapping with a text key and an options mapping containing the four letter
keys. -/
def goodQ (q : JValue) : Prop :=
  ∃ qk, q = .obj qk ∧ (lookup qk "text").isSome = true ∧
    ∃ okvs, lookup qk "options" = some (.obj okvs) ∧
      (lookup okvs "A").isSome = true ∧ (lookup okvs "B").isSome = true ∧
      (lookup okvs "C").isSome = true ∧ (lookup okvs "D").isSome = true

/-- Specification-side classification of a validator outcome, from the spec
sentence: the validator either accepts or fails with a specific
human-readable reason string (a ValueError, whose message is reasonString);
any other exception kind falsifies that sentence. -/
def acceptsOrReason : Except PyErr Bool → Bool
  | .ok _ => true
  | .error (.valueError _) => true
  | _ => false

/-- A minimal well-formed quiz with one question and an empty solution
table, used as a concrete witness input. -/
def miniQuiz : JValue :=
  .obj [ ("title", .str "T"),
         ("subtitle", .str "S"),
         ("questions", .arr
           [ .obj [ ("text", .str "Q"),
                    ("options", .obj [("A", .str "a"), ("B", .str "b"),
                                      ("C", .str "c"), ("D", .str "d")]) ] ]),
         ("solution_table", .arr []) ]

/-- A quiz that passes validation although its solution_table holds the
number 3, which is not a mapping. -/
def badRowQuiz : JValue :=
  .obj [ ("title", .str "T"),
         ("subtitle", .str "S"),
         ("questions", .arr
           [ .obj [ ("text", .str "Q"),
                    ("options", .obj [("A", .str "a"), ("B", .str "b"),
                                      ("C", .str "c"), ("D", .str "d")]) ] ]),
         ("solution_table", .arr [.num 3]) ]

/-- An input whose first question has complete presence but an empty
options mapping, while its second question is an empty mapping missing the
text key: a counterexample to a two-pass reading of the validator. -/
def interleaveQuiz : JValue :=
  .obj [ ("title", .str "T"),
         ("subtitle", .str "S"),
         ("questions", .arr [ .obj [("text", .str "q1"), ("options", .obj [])],
                              .obj [] ]),
         ("solution_table", .arr []) ]

/-- A quiz whose first question is fully well formed and whose second
question is an empty mapping (missing text and options). -/
def twoQuestionQuiz : JValue :=
  .obj [ ("title", .str "T"),
         ("subtitle", .str "S"),
         ("questions", .arr
           [ .obj [ ("text", .str "q1"),
                    ("options", .obj [("A", .str "a"), ("B", .str "b"),
                                      ("C", .str "c"), ("D", .str "d")]) ],
             .obj [] ]),
         ("solution_table", .arr []) ]

/-! Helper lemmas. -/

@[simp]
theorem exBind_ok_left {α β : Type} (a : α) (f : α → Except PyErr β) :
    exBind (.ok a) f = f a := rfl

@[simp]
theorem exBind_error_left {α β : Type} (e : PyErr) (f : α → Except PyErr β) :
    exBind (.error e) f = .error e := rfl

theorem exBind_ok_iff {α β : Type} {x : Except PyErr α} {f : α → Except PyErr β} {b : β} :
    exBind x f = .ok b ↔ ∃ a, x = .ok a ∧ f a = .ok b := by
  cases x <;> simp [exBind]

theorem pySubscript_ok {v : JValue} {k : String} {x : JValue}
    (h : pySubscript v k = .ok x) : ∃ kvs, v = .obj kvs ∧ lookup kvs k = some x := by
  cases v with
  | obj kvs =>
      cases hl : lookup kvs k with
      | none => simp [pySubscript, hl] at h
      | some y =>
          simp [pySubscript, hl] at h
          exact ⟨kvs, rfl, by rw [hl, h]⟩
  | null => simp [pySubscript] at h
  | bool b => simp [pySubscript] at h
  | num n => simp [pySubscript] at h
  | str s => simp [pySubscript] at h
  | arr xs => simp [pySubscript] at h

theorem checkTop_ok_mem {data : JValue} :
    ∀ {ks : List String}, checkTop data ks = .ok () →
      ∀ k ∈ ks, pyContains data k = .ok true := by
  intro ks
  induction ks with
  | nil => intro _ k hk; simp at hk
  | cons a rest ih =>
      intro h k hk
      unfold checkTop at h
      rcases exBind_ok_iff.mp h with ⟨p, hp, h2⟩
      cases p with
      | false => simp at h2
      | true =>
          simp only [if_true] at h2
          rcases List.mem_cons.mp hk with rfl | hk2
          · exact hp
          · exact ih h2 k hk2

theorem questionCheck_ok_good {i : Nat} {q : JValue}
    (h : questionCheck i q = .ok ()) : goodQ q := by
  unfold questionCheck at h
  rcases exBind_ok_iff.mp h with ⟨hasText, hText, h⟩
  cases hasText with
  | false => simp at h
  | true =>
      simp only [if_true] at h
      rcases exBind_ok_iff.mp h with ⟨hasOpts, hOpts, h⟩
      cases hasOpts with
      | false => simp at h
      | true =>
          simp only [if_true] at h
          rcases exBind_ok_iff.mp h with ⟨opts, hSub, h⟩
          obtain ⟨qk, rfl, hlookup⟩ := pySubscript_ok hSub
          cases opts with
          | obj okvs =>
              by_cases hAll : ((lookup okvs "A").isSome && (lookup okvs "B").isSome
                  && (lookup okvs "C").isSome && (lookup okvs "D").isSome) = true
              · have hAll4 := hAll
                simp only [Bool.and_eq_true] at hAll4
                exact ⟨qk, rfl, by simpa [pyContains] using hText, okvs, hlookup,
                  hAll4.1.1.1, hAll4.1.1.2, hAll4.1.2, hAll4.2⟩
              · simp [hAll] at h
          | null => simp at h
          | bool b => simp at h
          | num n => simp at h
          | str s => simp at h
          | arr xs => simp at h

theorem checkQuestions_ok_all {qs : List JValue} :
    ∀ {i : Nat}, checkQuestions i qs = .ok () → ∀ q ∈ qs, goodQ q := by
  induction qs with
  | nil => intro i _ q hq; simp at hq
  | cons q0 rest ih =>
      intro i h q hq
      unfold checkQuestions at h
      rcases exBind_ok_iff.mp h with ⟨u, hu, h2⟩
      rcases List.mem_cons.mp hq with rfl | hq2
      · exact questionCheck_ok_good (by cases u; exact hu)
      · exact ih h2 q hq2

theorem validate_ok_inv {data : JValue} (h : validate_quiz_schema data = .ok true) :
    ∃ kvs qs st, data = .obj kvs ∧
      (lookup kvs "title").isSome = true ∧ (lookup kvs "subtitle").isSome = true ∧
      lookup kvs "questions" = some (.arr qs) ∧ qs ≠ [] ∧
      checkQuestions 1 qs = .ok () ∧ (∀ q ∈ qs, goodQ q) ∧
      lookup kvs "solution_table" = some (.arr st) := by
  unfold validate_quiz_schema at h
  rcases exBind_ok_iff.mp h with ⟨u, hTop, h⟩
  rcases exBind_ok_iff.mp h with ⟨qv, hQ, h⟩
  obtain ⟨kvs, rfl, hlq⟩ := pySubscript_ok hQ
  cases qv with
  | arr qs =>
      by_cases hemp : qs = []
      · subst hemp; simp at h
      · simp only [List.isEmpty_eq_true, hemp, if_false] at h
        rcases exBind_ok_iff.mp h with ⟨u2, hCQ, h⟩
        rcases exBind_ok_iff.mp h with ⟨sv, hS, h⟩
        obtain ⟨kvs2, heq2, hls⟩ := pySubscript_ok hS
        cases heq2
        cases sv with
        | arr st =>
            cases u
            cases u2
            refine ⟨kvs, qs, st, rfl, ?_, ?_, hlq, ?_, hCQ, checkQuestions_ok_all hCQ, hls⟩
            · simpa [pyContains] using checkTop_ok_mem hTop "title" (by simp [requiredTop])
            · simpa [pyContains] using checkTop_ok_mem hTop "subtitle" (by simp [requiredTop])
            · simpa using hemp
        | null => simp at h
        | bool b => simp at h
        | num n => simp at h
        | str s => simp at h
        | obj kvs3 => simp at h
  | null => simp at h
  | bool b => simp at h
  | num n => simp at h
  | str s => simp at h
  | obj kvs3 => simp at h

theorem questionGroup_good {q : JValue} (hg : goodQ q) (i : Nat) :
    questionGroup i q = .ok (specQuestionGroup i q) := by
  obtain ⟨qk, rfl, hText, okvs, hOpts, hA, hB, hC, hD⟩ := hg
  obtain ⟨t, htv⟩ := Option.isSome_iff_exists.mp hText
  obtain ⟨a, hav⟩ := Option.isSome_iff_exists.mp hA
  obtain ⟨b, hbv⟩ := Option.isSome_iff_exists.mp hB
  obtain ⟨c, hcv⟩ := Option.isSome_iff_exists.mp hC
  obtain ⟨d, hdv⟩ := Option.isSome_iff_exists.mp hD
  simp [questionGroup, specQuestionGroup, pySubscript, jGetD,
        htv, hOpts, hav, hbv, hcv, hdv]

theorem questionsBlocks_good {qs : List JValue} (hg : ∀ q ∈ qs, goodQ q) :
    ∀ i, questionsBlocks i qs = .ok (specQuestionSegment i qs) := by
  induction qs with
  | nil => intro i; rfl
  | cons q0 rest ih =>
      intro i
      have h0 := questionGroup_good (hg q0 (by simp)) i
      have hr := ih (fun q hq => hg q (by simp [hq])) (i + 1)
      simp [questionsBlocks, specQuestionSegment, h0, hr]

theorem solutionRows_total : ∀ rows : List JValue,
    (∃ rs, solutionRows rows = .ok rs) ∨ solutionRows rows = .error .attributeError := by
  intro rows
  induction rows with
  | nil => exact .inl ⟨[], rfl⟩
  | cons row rest ih =>
      cases row with
      | obj kv =>
          rcases ih with ⟨rs, hrs⟩ | herr
          · exact .inl ⟨[pyStr ((lookup kv "number").getD (.str "")),
                pyStr ((lookup kv "answer").getD (.str "")),
                pyStr ((lookup kv "explanation").getD (.str ""))] :: rs,
              by simp [solutionRows, pyGet, hrs]⟩
          · exact .inr (by simp [solutionRows, pyGet, herr])
      | null => exact .inr (by simp [solutionRows, pyGet])
      | bool b => exact .inr (by simp [solutionRows, pyGet])
      | num n => exact .inr (by simp [solutionRows, pyGet])
      | str s => exact .inr (by simp [solutionRows, pyGet])
      | arr xs => exact .inr (by simp [solutionRows, pyGet])

theorem solutionRows_objs : ∀ rows : List JValue,
    (∀ r ∈ rows, ∃ kv, r = .obj kv) →
    solutionRows rows = .ok (rows.map specSolutionRow) := by
  intro rows
  induction rows with
  | nil => intro _; rfl
  | cons row rest ih =>
      intro h
      obtain ⟨kv, rfl⟩ := h row (by simp)
      have hr := ih (fun r hrm => h r (by simp [hrm]))
      simp [solutionRows, pyGet, specSolutionRow, jGetD, hr]

theorem build_story_eval {kvs : List (String × JValue)} {qs st : List JValue}
    (ht : (lookup kvs "title").isSome = true)
    (hs : (lookup kvs "subtitle").isSome = true)
    (hq : lookup kvs "questions" = some (.arr qs))
    (hg : ∀ q ∈ qs, goodQ q)
    (hst : lookup kvs "solution_table" = some (.arr st)) :
    build_story (.obj kvs) =
      exBind (solutionRows st) fun rs =>
        .ok (storyHead (.obj kvs) ++ specQuestionSegment 1 qs ++ storyTail rs) := by
  obtain ⟨t, htv⟩ := Option.isSome_iff_exists.mp ht
  obtain ⟨s, hsv⟩ := Option.isSome_iff_exists.mp hs
  have hqb := questionsBlocks_good hg 1
  simp [build_story, pySubscript, pyGet, pyIterElems, htv, hsv, hq, hst, hqb,
        storyHead, storyTail, jGetD]

theorem countP_specQuestionGroup (i : Nat) (q : JValue) :
    (specQuestionGroup i q).countP isBodyParagraph = 5 := by
  simp [specQuestionGroup, isBodyParagraph, List.countP_cons]

theorem countP_specQuestionSegment (qs : List JValue) :
    ∀ i, (specQuestionSegment i qs).countP isBodyParagraph = 5 * qs.length := by
  induction qs with
  | nil => intro i; simp [specQuestionSegment]
  | cons q rest ih =>
      intro i
      simp [specQuestionSegment, List.countP_append, ih (i + 1), countP_specQuestionGroup]
      omega

theorem filter_isTable_specQuestionSegment (qs : List JValue) :
    ∀ i, (specQuestionSegment i qs).filter isTable = [] := by
  induction qs with
  | nil => intro i; simp [specQuestionSegment]
  | cons q rest ih =>
      intro i
      simp [specQuestionSegment, List.filter_append, ih (i + 1), specQuestionGroup, isTable]

theorem pyContains_error {v : JValue} {k : String} {e : PyErr}
    (h : pyContains v k = .error e) : e = .typeError := by
  cases v <;> simp [pyContains] at h <;> simp [h]

theorem pySubscript_error {v : JValue} {k : String} {e : PyErr}
    (h : pySubscript v k = .error e) : e = .keyError k ∨ e = .typeError := by
  cases v with
  | obj kvs =>
      cases hl : lookup kvs k with
      | none => simp [pySubscript, hl] at h; simp [h]
      | some x => simp [pySubscript, hl] at h
  | null => simp [pySubscript] at h; simp [h]
  | bool b => simp [pySubscript] at h; simp [h]
  | num n => simp [pySubscript] at h; simp [h]
  | str s => simp [pySubscript] at h; simp [h]
  | arr xs => simp [pySubscript] at h; simp [h]

theorem questionCheck_missingFields_inv {i j : Nat} {q : JValue}
    (h : questionCheck i q = .error (.valueError (.questionMissingFields j))) : j = i := by
  unfold questionCheck at h
  cases hc1 : pyContains q "text" with
  | error e1 =>
      have := pyContains_error hc1
      subst this
      simp [hc1] at h
  | ok b1 =>
      cases b1 with
      | false => simp [hc1] at h; omega
      | true =>
          rw [hc1] at h
          simp only [exBind_ok_left, if_true] at h
          cases hc2 : pyContains q "options" with
          | error e2 =>
              have := pyContains_error hc2
              subst this
              simp [hc2] at h
          | ok b2 =>
              cases b2 with
              | false => simp [hc2] at h; omega
              | true =>
                  rw [hc2] at h
                  simp only [exBind_ok_left, if_true] at h
                  cases hc3 : pySubscript q "options" with
                  | error e3 =>
                      simp [hc3] at h
                      rcases pySubscript_error hc3 with h3 | h3 <;> simp [h] at h3
                  | ok opts =>
                      rw [hc3] at h
                      simp only [exBind_ok_left] at h
                      cases opts with
                      | obj okvs =>
                          by_cases hAll : ((lookup okvs "A").isSome && (lookup okvs "B").isSome
                              && (lookup okvs "C").isSome && (lookup okvs "D").isSome) = true
                          · simp [hAll] at h
                          · simp only [Bool.not_eq_true] at hAll
                            simp [hAll] at h
                      | null => simp at h
                      | bool b => simp at h
                      | num n => simp at h
                      | str s => simp at h
                      | arr xs => simp at h

theorem questionCheck_optionsIncomplete_inv {i j : Nat} {q : JValue}
    (h : questionCheck i q = .error (.valueError (.questionOptionsIncomplete j))) :
    j = i ∧ pyContains q "text" = .ok true ∧ pyContains q "options" = .ok true := by
  unfold questionCheck at h
  cases hc1 : pyContains q "text" with
  | error e1 =>
      have := pyContains_error hc1
      subst this
      simp [hc1] at h
  | ok b1 =>
      cases b1 with
      | false => simp [hc1] at h
      | true =>
          rw [hc1] at h
          simp only [exBind_ok_left, if_true] at h
          cases hc2 : pyContains q "options" with
          | error e2 =>
              have := pyContains_error hc2
              subst this
              simp [hc2] at h
          | ok b2 =>
              cases b2 with
              | false => simp [hc2] at h
              | true =>
                  rw [hc2] at h
                  simp only [exBind_ok_left, if_true] at h
                  cases hc3 : pySubscript q "options" with
                  | error e3 =>
                      simp [hc3] at h
                      rcases pySubscript_error hc3 with h3 | h3 <;> simp [h] at h3
                  | ok opts =>
                      rw [hc3] at h
                      simp only [exBind_ok_left] at h
                      cases opts with
                      | obj okvs =>
                          by_cases hAll : ((lookup okvs "A").isSome && (lookup okvs "B").isSome
                              && (lookup okvs "C").isSome && (lookup okvs "D").isSome) = true
                          · simp [hAll] at h
                          · simp only [Bool.not_eq_true] at hAll
                            simp only [hAll, Bool.false_eq_true, if_false] at h
                            refine ⟨?_, rfl, rfl⟩
                            simp at h
                            omega
                      | null => exact ⟨by simp at h; omega, rfl, rfl⟩
                      | bool b => exact ⟨by simp at h; omega, rfl, rfl⟩
                      | num n => exact ⟨by simp at h; omega, rfl, rfl⟩
                      | str s => exact ⟨by simp at h; omega, rfl, rfl⟩
                      | arr xs => exact ⟨by simp at h; omega, rfl, rfl⟩

theorem checkQuestions_first_aux :
    ∀ (qs : List JValue) (base n : Nat) (q : JValue) (e : PyErr),
      qs[n]? = some q →
      (∀ k, k < n → ∀ qk, qs[k]? = some qk → questionCheck (base + k) qk = .ok ()) →
      questionCheck (base + n) q = .error e →
      checkQuestions base qs = .error e := by
  intro qs
  induction qs with
  | nil => intro base n q e hget _ _; simp at hget
  | cons q0 rest ih =>
      intro base n q e hget hprev herr
      cases n with
      | zero =>
          simp only [List.getElem?_cons_zero, Option.some.injEq] at hget
          subst hget
          simp only [Nat.add_zero] at herr
          simp [checkQuestions, herr]
      | succ m =>
          have h0 : questionCheck (base + 0) q0 = .ok () :=
            hprev 0 (Nat.succ_pos m) q0 (by simp)
          simp only [Nat.add_zero] at h0
          have harith : base + (m + 1) = (base + 1) + m := by omega
          rw [harith] at herr
          have htail : checkQuestions (base + 1) rest = .error e := by
            refine ih (base + 1) m q e (by simpa using hget) ?_ herr
            intro k hk qk hqk
            have := hprev (k + 1) (Nat.succ_lt_succ hk) qk (by simpa using hqk)
            have ha2 : base + (k + 1) = (base + 1) + k := by omega
            rw [ha2] at this
            exact this
          simp [checkQuestions, h0, htail]

theorem checkTop_obj_cases (kvs : List (String × JValue)) :
    ∀ ks : List String, checkTop (.obj kvs) ks = .ok () ∨
      ∃ k, checkTop (.obj kvs) ks = .error (.valueError (.missingTop k)) := by
  intro ks
  induction ks with
  | nil => exact .inl rfl
  | cons a rest ih =>
      cases hl : (lookup kvs a).isSome with
      | false => exact .inr ⟨a, by simp [checkTop, pyContains, hl]⟩
      | true =>
          rcases ih with hok | ⟨k, herr⟩
          · exact .inl (by simp [checkTop, pyContains, hl, hok])
          · exact .inr ⟨k, by simp [checkTop, pyContains, hl, herr]⟩

theorem questionCheck_obj_cases (i : Nat) (qk : List (String × JValue)) :
    questionCheck i (.obj qk) = .ok () ∨
      ∃ e, questionCheck i (.obj qk) = .error (.valueError e) := by
  cases h1 : (lookup qk "text").isSome with
  | false =>
      exact .inr ⟨.questionMissingFields i, by simp [questionCheck, pyContains, h1]⟩
  | true =>
      cases h2 : lookup qk "options" with
      | none =>
          exact .inr ⟨.questionMissingFields i, by simp [questionCheck, pyContains, h1, h2]⟩
      | some opts =>
          cases opts with
          | obj okvs =>
              cases hAll : ((lookup okvs "A").isSome && (lookup okvs "B").isSome
                  && (lookup okvs "C").isSome && (lookup okvs "D").isSome) with
              | true =>
                  refine .inl ?_
                  unfold questionCheck
                  rw [show pyContains (.obj qk) "text" = .ok true by simp [pyContains, h1]]
                  simp only [exBind_ok_left, if_true]
                  rw [show pyContains (.obj qk) "options" = .ok true by simp [pyContains, h2]]
                  simp only [exBind_ok_left, if_true]
                  rw [show pySubscript (.obj qk) "options" = .ok (.obj okvs) by
                    simp [pySubscript, h2]]
                  simp only [exBind_ok_left]
                  rw [hAll]
                  simp
              | false =>
                  refine .inr ⟨.questionOptionsIncomplete i, ?_⟩
                  unfold questionCheck
                  rw [show pyContains (.obj qk) "text" = .ok true by simp [pyContains, h1]]
                  simp only [exBind_ok_left, if_true]
                  rw [show pyContains (.obj qk) "options" = .ok true by simp [pyContains, h2]]
                  simp only [exBind_ok_left, if_true]
                  rw [show pySubscript (.obj qk) "options" = .ok (.obj okvs) by
                    simp [pySubscript, h2]]
                  simp only [exBind_ok_left]
                  rw [hAll]
                  simp
          | null =>
              exact .inr ⟨.questionOptionsIncomplete i, by
                simp [questionCheck, pyContains, pySubscript, h1, h2]⟩
          | bool b =>
              exact .inr ⟨.questionOptionsIncomplete i, by
                simp [questionCheck, pyContains, pySubscript, h1, h2]⟩
          | num n =>
              exact .inr ⟨.questionOptionsIncomplete i, by
                simp [questionCheck, pyContains, pySubscript, h1, h2]⟩
          | str s =>
              exact .inr ⟨.questionOptionsIncomplete i, by
                simp [questionCheck, pyContains, pySubscript, h1, h2]⟩
          | arr xs =>
              exact .inr ⟨.questionOptionsIncomplete i, by
                simp [questionCheck, pyContains, pySubscript, h1, h2]⟩

theorem checkQuestions_obj_cases :
    ∀ qs : List JValue, (∀ q ∈ qs, ∃ qk, q = .obj qk) →
      ∀ i, checkQuestions i qs = .ok () ∨
        ∃ e, checkQuestions i qs = .error (.valueError e) := by
  intro qs
  induction qs with
  | nil => intro _ i; exact .inl rfl
  | cons q0 rest ih =>
      intro hobj i
      obtain ⟨qk, rfl⟩ := hobj q0 (by simp)
      rcases questionCheck_obj_cases i qk with hok | ⟨e, herr⟩
      · rcases ih (fun q hq => hobj q (by simp [hq])) (i + 1) with hok2 | ⟨e2, herr2⟩
        · exact .inl (by simp [checkQuestions, hok, hok2])
        · exact .inr ⟨e2, by simp [checkQuestions, hok, herr2]⟩
      · exact .inr ⟨e, by simp [checkQuestions, herr]⟩

/-! Claim theorems. -/

/-- Claim C1: for every input value on which validate succeeds, the story
construction of build_pdf indexes options A, B, C, D of every question and
iterates questions and solution_table without any missing-key error being
raised: its outcome is never a KeyError; it either succeeds outright or
fails with the AttributeError of a non-mapping solution-table row, the one
failure validation does not exclude (see claim C10). -/
theorem claimC1 (data : JValue) (k : String)
    (h : validate_quiz_schema data = .ok true) :
    build_story data ≠ .error (.keyError k) ∧
    ((∃ bs, build_story data = .ok bs) ∨ build_story data = .error .attributeError) := by
  obtain ⟨kvs, qs, st, rfl, ht, hs, hq, hne, hcq, hg, hst⟩ := validate_ok_inv h
  have heval := build_story_eval ht hs hq hg hst
  rcases solutionRows_total st with ⟨rs, hrs⟩ | herr
  · rw [heval, hrs]
    exact ⟨by simp,
      .inl ⟨storyHead (.obj kvs) ++ specQuestionSegment 1 qs ++ storyTail rs, by simp⟩⟩
  · rw [heval, herr]
    exact ⟨by simp, .inr (by simp)⟩

/-- Witness for claim C1: the miniQuiz fixture validates (checked by rfl)
and the conclusion holds for it at the key A. -/
theorem claimC1_witness :
    build_story miniQuiz ≠ .error (.keyError "A") ∧
    ((∃ bs, build_story miniQuiz = .ok bs) ∨ build_story miniQuiz = .error .attributeError) :=
  claimC1 miniQuiz "A" rfl

/-- Claim C5: every mapping input carrying all four top-level keys whose
questions field is the empty sequence is rejected by validate_quiz_schema
with the non-empty reason (questions must be a non-empty list), regardless
of the contents of every other field. -/
theorem claimC5 {kvs : List (String × JValue)}
    (ht : (lookup kvs "title").isSome = true)
    (hs : (lookup kvs "subtitle").isSome = true)
    (hq : lookup kvs "questions" = some (.arr []))
    (hst : (lookup kvs "solution_table").isSome = true) :
    validate_quiz_schema (.obj kvs) = .error (.valueError .questionsNotNonemptyList) := by
  simp [validate_quiz_schema, checkTop, requiredTop, pyContains, pySubscript,
        ht, hs, hq, hst]

/-- Witness for claim C5: empty questions with a null title, a numeric
subtitle and a numeric (thoroughly malformed) solution_table still yield
exactly the non-empty-list rejection. -/
theorem claimC5_witness :
    validate_quiz_schema (.obj [("title", .null), ("subtitle", .num 0),
        ("questions", .arr []), ("solution_table", .num 7)])
      = .error (.valueError .questionsNotNonemptyList) :=
  claimC5 rfl rfl rfl rfl

/-- Claim C10: the badRowQuiz input passes validate_quiz_schema although
its solution_table is the sequence containing the number 3, which is not a
mapping, and the story construction of build_pdf then raises an
AttributeError (from row.get on a non-mapping) instead of producing a
solution-table row: validation success does not guarantee assembly
succeeds. -/
theorem claimC10 :
    validate_quiz_schema badRowQuiz = .ok true ∧
    build_story badRowQuiz = .error .attributeError :=
  ⟨rfl, rfl⟩

/-- Claim C7: the built-in sample fixture passes validate_quiz_schema
unmodified, and its assembled story contains exactly 2 PageBreak blocks
and exactly 25 question-related BodyParagraph blocks (5 questions times 5
paragraphs each). -/
theorem claimC7 :
    validate_quiz_schema SAMPLE_TEMPLATE = .ok true ∧
    Except.map (fun bs => (bs.countP isPageBreak, bs.countP isBodyParagraph))
        (build_story SAMPLE_TEMPLATE) = .ok (2, 25) :=
  ⟨rfl, rfl⟩

/-- Claim C9: the story construction is a pure data transformation (the
source only reads the quiz value and appends to a fresh local list; the
file output belongs to the external renderer), so two evaluations of
build_story on the same unmodified value yield structurally identical
results. -/
theorem claimC9 (data : JValue) (r1 r2 : Except PyErr (List Block))
    (h1 : build_story data = r1) (h2 : build_story data = r2) : r1 = r2 :=
  h1.symm.trans h2

/-- Witness for claim C9 at the sample fixture. -/
theorem claimC9_witness : build_story SAMPLE_TEMPLATE = build_story SAMPLE_TEMPLATE :=
  claimC9 SAMPLE_TEMPLATE (build_story SAMPLE_TEMPLATE) (build_story SAMPLE_TEMPLATE) rfl rfl

/-- Claim C4 counterexample: the null value (a well-formed parsed input
that has no keys at all, hence is missing every one of the four required
top-level keys) makes validate_quiz_schema raise a TypeError from the
membership test, not the ValueError naming the first missing key that the
claim requires for every input value. -/
theorem claimC4_counterexample :
    validate_quiz_schema JValue.null = .error .typeError ∧
    validate_quiz_schema JValue.null ≠ .error (.valueError (.missingTop "title")) := by
  refine ⟨rfl, ?_⟩
  intro h
  simp [validate_quiz_schema, checkTop, requiredTop, pyContains] at h

/-- Claim C4 (amended to mapping inputs): for every mapping input value
missing at least one of the four required top-level keys, validate fails
reporting by name exactly the first missing key in the fixed order title,
subtitle, questions, solution_table, and no other reason. -/
theorem claimC4_amended {kvs : List (String × JValue)} {k : String}
    (h : requiredTop.find? (fun s => (lookup kvs s).isNone) = some k) :
    validate_quiz_schema (.obj kvs) = .error (.valueError (.missingTop k)) := by
  cases h1 : lookup kvs "title" with
  | none =>
      obtain rfl : k = "title" := by
        simp [requiredTop, List.find?, h1] at h
        exact h.symm
      simp [validate_quiz_schema, checkTop, requiredTop, pyContains, h1]
  | some v1 =>
      cases h2 : lookup kvs "subtitle" with
      | none =>
          obtain rfl : k = "subtitle" := by
            simp [requiredTop, List.find?, h1, h2] at h
            exact h.symm
          simp [validate_quiz_schema, checkTop, requiredTop, pyContains, h1, h2]
      | some v2 =>
          cases h3 : lookup kvs "questions" with
          | none =>
              obtain rfl : k = "questions" := by
                simp [requiredTop, List.find?, h1, h2, h3] at h
                exact h.symm
              simp [validate_quiz_schema, checkTop, requiredTop, pyContains, h1, h2, h3]
          | some v3 =>
              cases h4 : lookup kvs "solution_table" with
              | none =>
                  obtain rfl : k = "solution_table" := by
                    simp [requiredTop, List.find?, h1, h2, h3, h4] at h
                    exact h.symm
                  simp [validate_quiz_schema, checkTop, requiredTop, pyContains,
                        h1, h2, h3, h4]
              | some v4 =>
                  exfalso
                  simp [requiredTop, List.find?, h1, h2, h3, h4] at h

/-- Witness for claim C4 amended: a mapping holding only the title is
rejected naming subtitle, the first missing key in the fixed order. -/
theorem claimC4_witness :
    validate_quiz_schema (.obj [("title", .str "t")])
      = .error (.valueError (.missingTop "subtitle")) :=
  claimC4_amended rfl

/-- Claim C8 counterexample: the number 42 is a parsed structured-data
value of unconstrained shape on which validate_quiz_schema neither accepts
nor fails with one of its human-readable ValueError reasons: it raises a
TypeError from the membership test on a non-container. -/
theorem claimC8_counterexample :
    acceptsOrReason (validate_quiz_schema (.num 42)) = false :=
  rfl

/-- Claim C8 (amended): on every parsed value that is a mapping and whose
questions field, when it is a sequence, contains only mappings, the
validator either accepts or fails with one of its specific human-readable
reason strings (a ValueError rendered by reasonString) and with no other
kind of failure.  On other shapes the membership test or a subscript can
raise a TypeError instead, as the counterexample shows. -/
theorem claimC8_amended (kvs : List (String × JValue))
    (hqobj : ∀ qs, lookup kvs "questions" = some (.arr qs) →
      ∀ q ∈ qs, ∃ qk, q = .obj qk) :
    acceptsOrReason (validate_quiz_schema (.obj kvs)) = true := by
  rcases checkTop_obj_cases kvs requiredTop with hTop | ⟨k, hTop⟩
  · have hqmem := checkTop_ok_mem hTop "questions" (by simp [requiredTop])
    have hsmem := checkTop_ok_mem hTop "solution_table" (by simp [requiredTop])
    have hqs : (lookup kvs "questions").isSome = true := by simpa [pyContains] using hqmem
    have hss : (lookup kvs "solution_table").isSome = true := by simpa [pyContains] using hsmem
    obtain ⟨qv, hqv⟩ := Option.isSome_iff_exists.mp hqs
    obtain ⟨sv, hsv⟩ := Option.isSome_iff_exists.mp hss
    cases qv with
    | arr qs =>
        by_cases hemp : qs = []
        · subst hemp
          simp [validate_quiz_schema, hTop, pySubscript, hqv, acceptsOrReason]
        · rcases checkQuestions_obj_cases qs (hqobj qs hqv) 1 with hcq | ⟨e, hcq⟩
          · cases sv <;>
              simp [validate_quiz_schema, hTop, pySubscript, hqv, hsv, hemp, hcq,
                    acceptsOrReason]
          · simp [validate_quiz_schema, hTop, pySubscript, hqv, hemp, hcq, acceptsOrReason]
    | null => simp [validate_quiz_schema, hTop, pySubscript, hqv, acceptsOrReason]
    | bool b => simp [validate_quiz_schema, hTop, pySubscript, hqv, acceptsOrReason]
    | num n => simp [validate_quiz_schema, hTop, pySubscript, hqv, acceptsOrReason]
    | str s => simp [validate_quiz_schema, hTop, pySubscript, hqv, acceptsOrReason]
    | obj o => simp [validate_quiz_schema, hTop, pySubscript, hqv, acceptsOrReason]
  · simp [validate_quiz_schema, hTop, acceptsOrReason]

/-- Witness for claim C8 amended at the empty mapping, whose questions
hypothesis holds vacuously; the validator rejects it with the missing-title
reason, an accepted outcome. -/
theorem claimC8_witness :
    acceptsOrReason (validate_quiz_schema (.obj [])) = true :=
  claimC8_amended [] (by intro qs hq; simp [lookup] at hq)

/-- Claim C2: for every validated quiz with questions qs whose assembly
succeeds, the story is the fixed head, then exactly the question section
prescribed by the spec (specQuestionSegment: per question in order, with
1-based index, one stem paragraph rendering the index, a dot and the text,
then the four option paragraphs addressed by the constant letter keys A, B,
C, D in that fixed order regardless of the key ordering of the options
mapping, then a small spacer), then the solution tail; and the story holds
exactly 5 times the number of questions many BodyParagraph blocks, so the
question groups account for all of them. -/
theorem claimC2 (data : JValue) {kvs : List (String × JValue)} {qs : List JValue}
    (hv : validate_quiz_schema data = .ok true)
    (hd : data = .obj kvs)
    (hq : lookup kvs "questions" = some (.arr qs))
    (hok : ∃ bs, build_story data = .ok bs) :
    ∃ bs rs, build_story data = .ok bs ∧
      bs = storyHead data ++ specQuestionSegment 1 qs ++ storyTail rs ∧
      bs.countP isBodyParagraph = 5 * qs.length := by
  subst hd
  obtain ⟨kvs2, qs2, st, heq, ht, hs, hq2, hne, hcq, hg, hst⟩ := validate_ok_inv hv
  obtain rfl : kvs = kvs2 := by injection heq
  rw [hq] at hq2
  obtain rfl : qs = qs2 := by simpa using hq2
  have heval := build_story_eval ht hs hq hg hst
  obtain ⟨bs0, hbs⟩ := hok
  rw [heval] at hbs
  rcases exBind_ok_iff.mp hbs with ⟨rs, hrs, hfb⟩
  refine ⟨storyHead (.obj kvs) ++ specQuestionSegment 1 qs ++ storyTail rs, rs, ?_, rfl, ?_⟩
  · rw [heval, hrs]
    simp
  · simp [List.countP_append, countP_specQuestionSegment, storyHead, storyTail,
          isBodyParagraph, List.countP_cons]

/-- Witness for claim C2 at the miniQuiz fixture with its one question. -/
theorem claimC2_witness :
    ∃ bs rs, build_story miniQuiz = .ok bs ∧
      bs = storyHead miniQuiz ++ specQuestionSegment 1
          [ .obj [ ("text", .str "Q"),
                   ("options", .obj [("A", .str "a"), ("B", .str "b"),
                                     ("C", .str "c"), ("D", .str "d")]) ] ] ++ storyTail rs ∧
      bs.countP isBodyParagraph = 5 * List.length
          [ JValue.obj [ ("text", JValue.str "Q"),
                   ("options", .obj [("A", .str "a"), ("B", .str "b"),
                                     ("C", .str "c"), ("D", .str "d")]) ] ] :=
  claimC2 miniQuiz rfl rfl rfl ⟨_, rfl⟩

/-- Claim C6: for every validated quiz all of whose solution_table entries
are mappings, assembly succeeds and its story holds exactly one Table
block, whose first row is the header and which is followed by one row per
solution_table entry in order, each of number, answer, explanation coerced
to display text with missing fields rendering as empty text rather than
failing (specSolutionRow); with an empty solution_table the table holds
only the header row, as the witness shows. -/
theorem claimC6 (data : JValue) {kvs : List (String × JValue)} {st : List JValue}
    (hv : validate_quiz_schema data = .ok true)
    (hd : data = .obj kvs)
    (hst : lookup kvs "solution_table" = some (.arr st))
    (hrows : ∀ r ∈ st, ∃ kv, r = .obj kv) :
    ∃ bs, build_story data = .ok bs ∧
      bs.filter isTable = [.table (tableHeader :: st.map specSolutionRow) tableColWidths] := by
  subst hd
  obtain ⟨kvs2, qs, st2, heq, ht, hs, hq, hne, hcq, hg, hst2⟩ := validate_ok_inv hv
  obtain rfl : kvs = kvs2 := by injection heq
  rw [hst] at hst2
  obtain rfl : st = st2 := by simpa using hst2
  have heval := build_story_eval ht hs hq hg hst
  have hrs := solutionRows_objs st hrows
  refine ⟨storyHead (.obj kvs) ++ specQuestionSegment 1 qs
      ++ storyTail (st.map specSolutionRow), ?_, ?_⟩
  · rw [heval, hrs]
    simp
  · simp [List.filter_append, filter_isTable_specQuestionSegment, storyHead, storyTail,
          isTable]

/-- Witness for claim C6 at the miniQuiz fixture, whose solution_table is
empty: the single Table block holds only the header row. -/
theorem claimC6_witness :
    ∃ bs, build_story miniQuiz = .ok bs ∧
      bs.filter isTable = [.table [tableHeader] tableColWidths] :=
  claimC6 miniQuiz rfl rfl rfl (by intro r hr; simp at hr)

/-- Claim C3 counterexample: in interleaveQuiz the first question passes
the presence check but has an empty options mapping, while the second
question (an empty mapping) fails the presence check for text; the
validator nevertheless reports the options failure of question 1.  Hence
the presence check (check 3) is not applied to every element of questions
before the options check (check 4) reports a question: the two checks are
interleaved per question, contradicting the claimed two-pass order. -/
theorem claimC3_counterexample :
    validate_quiz_schema interleaveQuiz
      = .error (.valueError (.questionOptionsIncomplete 1)) ∧
    pyContains (.obj ([] : List (String × JValue))) "text" = .ok false :=
  ⟨rfl, rfl⟩

/-- Claim C3 (amended): the per-question checks are interleaved in one
in-order pass over questions: the first question failing its own check
body is the one reported, with its 1-based position n + 1; a
missing-fields reason always carries the failing position, and an
options-incomplete reason additionally means that very question passed the
presence check for text and options first. -/
theorem claimC3_amended {kvs : List (String × JValue)} {qs : List JValue}
    (n : Nat) (q : JValue) (j : Nat) {e : PyErr}
    (ht : (lookup kvs "title").isSome = true)
    (hs : (lookup kvs "subtitle").isSome = true)
    (hq : lookup kvs "questions" = some (.arr qs))
    (hst : (lookup kvs "solution_table").isSome = true)
    (hget : qs[n]? = some q)
    (hprev : ∀ k, k < n → ∀ qk, qs[k]? = some qk → questionCheck (k + 1) qk = .ok ())
    (herr : questionCheck (n + 1) q = .error e) :
    validate_quiz_schema (.obj kvs) = .error e ∧
    (e = .valueError (.questionMissingFields j) → j = n + 1) ∧
    (e = .valueError (.questionOptionsIncomplete j) →
      j = n + 1 ∧ pyContains q "text" = .ok true ∧ pyContains q "options" = .ok true) := by
  have hcq : checkQuestions 1 qs = .error e := by
    refine checkQuestions_first_aux qs 1 n q e hget ?_ ?_
    · intro k hk qk hqk
      have hstep := hprev k hk qk hqk
      have ha : 1 + k = k + 1 := by omega
      rw [ha]
      exact hstep
    · have ha : 1 + n = n + 1 := by omega
      rw [ha]
      exact herr
  have hne : qs ≠ [] := by
    intro hnil
    subst hnil
    simp at hget
  refine ⟨?_, ?_, ?_⟩
  · simp [validate_quiz_schema, checkTop, requiredTop, pyContains, pySubscript,
          ht, hs, hq, hst, hne, hcq]
  · intro hEq
    rw [hEq] at herr
    exact questionCheck_missingFields_inv herr
  · intro hEq
    rw [hEq] at herr
    exact questionCheck_optionsIncomplete_inv herr

/-- Witness for claim C3 amended at twoQuestionQuiz: question 1 passes its
whole check body and question 2 (position n + 1 = 2) is reported for its
missing text and options presence. -/
theorem claimC3_witness :
    validate_quiz_schema twoQuestionQuiz
      = .error (.valueError (.questionMissingFields 2)) ∧
    (PyErr.valueError (.questionMissingFields 2)
        = .valueError (.questionMissingFields 2) → 2 = 2) ∧
    (PyErr.valueError (.questionMissingFields 2)
        = .valueError (.questionOptionsIncomplete 2) →
      2 = 2 ∧ pyContains (.obj []) "text" = .ok true ∧
        pyContains (.obj []) "options" = .ok true) :=
  claimC3_amended 1 (.obj []) 2 rfl rfl rfl rfl rfl
    (by
      intro k hk qk hqk
      have hk0 : k = 0 := by omega
      subst hk0
      simp only [List.getElem?_cons_zero, Option.some.injEq] at hqk
      subst hqk
      rfl)
    rfl
